import Mathlib

/-!
Verification development for the morphing christmas-tree scene (src/App.tsx).

The file shallowly embeds the algorithmic core of the source file:
the cubic ease-in-out used by both the per-instance morph engine and the
point-cloud vertex program, the isotropic scatter-position generator, the
per-point morph/idle-motion math of `MorphingInstances.update` and of the
vertex shader, the morph-value smoothing step of the render loop, the
gesture debounce/cooldown state machine of `predictWebcam`, the wrist
dead-zone orbit control, the photo-focus selection of the render loop, and
the darken/restore material substitution of the selective bloom pass.

Real-number quantities of the source (positions, angles, times of the
easing math) are modelled over `ℝ`; the discrete state machines that the
render and video callbacks drive (morph smoothing, gesture debouncing,
focus selection) are modelled executably over `ℚ` and `ℕ`.
-/

namespace Christmas

/-- Component-wise real vector standing in for `THREE.Vector3`. -/
structure Vec3 where
  x : ℝ
  y : ℝ
  z : ℝ

/-- Constant `SCATTER_CENTER_Y` of the source. -/
noncomputable def SCATTER_CENTER_Y : ℝ := 0.2

/-- Core radius constant of `SCATTER_CONFIG`. -/
noncomputable def CORE_RADIUS : ℝ := 3.2

/-- Outer radius constant of `SCATTER_CONFIG`. -/
noncomputable def OUTER_RADIUS : ℝ := 16.0

/-- Core-ratio constant of `SCATTER_CONFIG` (the 0.8 weighted coin). -/
noncomputable def coreRatio : ℝ := 0.8

/-- The formation center `(0, SCATTER_CENTER_Y, 0)` that scatter sampling is centered on. -/
noncomputable def scatterCenter : Vec3 := ⟨0, SCATTER_CENTER_Y, 0⟩

/-- Squared euclidean distance between two vectors. -/
noncomputable def distSq (a b : Vec3) : ℝ :=
  (a.x - b.x) ^ 2 + (a.y - b.y) ^ 2 + (a.z - b.z) ^ 2

/-- The cubic ease-in-out `easeInOutCubic` of the body vertex shader:
`x < 0.5 ? 4x³ : 1 - (-2x+2)³/2`. -/
noncomputable def easeInOutCubic (x : ℝ) : ℝ :=
  if x < 0.5 then 4 * x * x * x else 1 - (-2 * x + 2) ^ 3 / 2

/-- The eased morph value computed at the top of `MorphingInstances.update`
(line 179): `morphVal < 0.5 ? 4·morphVal³ : 1 - (-2·morphVal+2)³/2`. -/
noncomputable def morphingInstancesEased (morphVal : ℝ) : ℝ :=
  if morphVal < 0.5 then 4 * morphVal * morphVal * morphVal
  else 1 - (-2 * morphVal + 2) ^ 3 / 2

/-- GLSL `mix(a, b, t)` applied component-wise, as used for
`mix(position, aScatterPosition, easedMorph)` in the vertex shader. -/
noncomputable def glslMix (a b : Vec3) (t : ℝ) : Vec3 :=
  ⟨a.x * (1 - t) + b.x * t, a.y * (1 - t) + b.y * t, a.z * (1 - t) + b.z * t⟩

/-- The linear interpolation `THREE.Vector3.lerpVectors(v1, v2, alpha)` as used by
`MorphingInstances.update`: each component is `v1 + (v2 - v1) * alpha`. -/
noncomputable def lerpVec (v1 v2 : Vec3) (alpha : ℝ) : Vec3 :=
  ⟨v1.x + (v2.x - v1.x) * alpha, v1.y + (v2.y - v1.y) * alpha,
   v1.z + (v2.z - v1.z) * alpha⟩

/-- The scatter-position generator `getIsotropicScatterPos`.  Each `Math.random()`
draw of the source is passed explicitly, in call order: `coin` is the core/halo
coin used when no override is given, `u`/`v` drive the isotropic direction,
`w` is the radius draw, `jc` the 30% jitter coin and `sd` the jitter seed draw.
Returns the generated position together with the `isHalo` flag. -/
noncomputable def getIsotropicScatterPos (isCoreOverride : Option Bool)
    (coin u v w jc sd : ℝ) : Vec3 × Bool :=
  let isCore := isCoreOverride.getD (decide (coin < coreRatio))
  let theta := 2 * Real.pi * u
  let phi := Real.arccos (2 * v - 1)
  let dirX := Real.sin phi * Real.cos theta
  let dirY := Real.sin phi * Real.sin theta
  let dirZ := Real.cos phi
  if isCore then
    let r := CORE_RADIUS * w ^ ((1:ℝ) / 3)
    (⟨dirX * r + 0, dirY * r + SCATTER_CENTER_Y, dirZ * r + 0⟩, false)
  else
    let rsmall := CORE_RADIUS * 1.05
    let rbig := OUTER_RADIUS
    let r := (w * (rbig ^ (3:ℕ) - rsmall ^ (3:ℕ)) + rsmall ^ (3:ℕ)) ^ ((1:ℝ) / 3)
    let x0 := dirX * r + 0
    let y0 := dirY * r + SCATTER_CENTER_Y
    let z0 := dirZ * r + 0
    if jc < 0.3 then
      let seed := sd * 100
      let x1 := x0 + 0.15 * Real.sin (y0 * 1.7 + seed)
      let z1 := z0 + 0.15 * Real.cos (x1 * 1.7 + seed)
      (⟨x1, y0, z1⟩, true)
    else
      (⟨x0, y0, z0⟩, true)

/-- The per-vertex position computed by the body vertex shader
(`bodyVertexShader`): eased mix of `position` and `aScatterPosition`, the
`uMorph < 0.99` breathing term, then the halo drift / core pulse idle motion
keyed on `aHalo`. -/
noncomputable def shaderVertexPos (uMorph uTime : ℝ) (position aScatterPosition : Vec3)
    (aSeed aHalo : ℝ) : Vec3 :=
  let easedMorph := easeInOutCubic uMorph
  let m0 := glslMix position aScatterPosition easedMorph
  let m1 : Vec3 :=
    if uMorph < 0.99 then
      let breathe := Real.sin (uTime * 1.2 + m0.y * 0.5) * 0.02 * (1 - easedMorph)
      ⟨m0.x + breathe, m0.y, m0.z + breathe⟩
    else m0
  if 0.01 < uMorph then
    if 0.5 < aHalo then
      let noiseX := Real.sin (uTime * 0.4 + aSeed * 12)
      let noiseY := Real.cos (uTime * 0.3 + aSeed * 25)
      let noiseZ := Real.sin (uTime * 0.2 + m1.x)
      ⟨m1.x + noiseX * 0.4 * easedMorph,
       m1.y + noiseY * 0.5 * 0.4 * easedMorph,
       m1.z + noiseZ * 0.4 * easedMorph⟩
    else
      let dx := m1.x - 0
      let dy := m1.y - SCATTER_CENTER_Y
      let dz := m1.z - 0
      let len := Real.sqrt (dx ^ 2 + dy ^ 2 + dz ^ 2)
      let dir : Vec3 := if len < 0.001 then ⟨0, 1, 0⟩ else ⟨dx / len, dy / len, dz / len⟩
      let pulse := Real.sin (uTime * 1.5 + aSeed * 10 + m1.y)
      ⟨m1.x + dir.x * 0.05 * pulse * easedMorph,
       m1.y + dir.y * 0.05 * pulse * easedMorph,
       m1.z + dir.z * 0.05 * pulse * easedMorph⟩
  else m1

/-- The position written for instance `i` by `MorphingInstances.update`:
`lerpVectors(treePos, scatterPos, eased)`, then for `morphVal > 0.01` either
the halo x/y drift or the core radial pulse along `normalize(s - center)`
(`THREE.Vector3.normalize` leaves the zero vector unchanged). -/
noncomputable def morphingInstancesUpdatePos (morphVal time : ℝ) (t s : Vec3) (i : ℕ)
    (isOuter : Bool) : Vec3 :=
  let eased := morphingInstancesEased morphVal
  let p0 := lerpVec t s eased
  if 0.01 < morphVal then
    if isOuter then
      let noiseX := Real.sin (time * 0.4 + (i:ℝ) * 0.1)
      let noiseY := Real.cos (time * 0.3 + (i:ℝ) * 0.2)
      ⟨p0.x + noiseX * 0.02 * eased, p0.y + noiseY * 0.02 * eased, p0.z⟩
    else
      let dx := s.x - 0
      let dy := s.y - SCATTER_CENTER_Y
      let dz := s.z - 0
      let len := Real.sqrt (dx ^ 2 + dy ^ 2 + dz ^ 2)
      let dir : Vec3 := if len = 0 then ⟨dx, dy, dz⟩ else ⟨dx / len, dy / len, dz / len⟩
      let noise := Real.sin (time * 2.0 + (i:ℝ) * 0.1)
      ⟨p0.x + dir.x * (0.05 * eased * noise),
       p0.y + dir.y * (0.05 * eased * noise),
       p0.z + dir.z * (0.05 * eased * noise)⟩
  else p0

/-- The per-tick morph smoothing step of the render loop:
`|target - current| > 0.001` smooths by `current += (target - current)·0.05`,
otherwise snaps `current` to `target`. -/
def morphStep (target current : ℚ) : ℚ :=
  if 0.001 < |target - current| then current + (target - current) * 0.05 else target

/-- Iterate the morph smoothing step over `n` render ticks from `current`. -/
def morphIter (target : ℚ) : ℕ → ℚ → ℚ
  | 0, c => c
  | n + 1, c => morphStep target (morphIter target n c)

/-- The five gesture classes produced by `classifyGesture`. -/
inductive GestureType where
  | FIST
  | OPEN_PALM
  | V_SIGN
  | INDEX_UP
  | UNKNOWN
  deriving DecidableEq

/-- The mutable gesture state of `predictWebcam` (`gestureState` ref).
Timestamps are in milliseconds, as delivered by the video-frame clock. -/
structure GestureState where
  lastRawGesture : GestureType
  debounceCount : ℕ
  currentStableGesture : GestureType
  lastActionTime : ℚ
  deriving DecidableEq

/-- The initial gesture state of the source. -/
def initGestureState : GestureState := ⟨GestureType.UNKNOWN, 0, GestureType.UNKNOWN, 0⟩

/-- One video-frame update of the gesture state machine: the debounce update
(`rawGesture === lastRawGesture && rawGesture !== UNKNOWN` increments the
counter, anything else resets it to `0` and re-records the raw class), then,
once the counter has reached `8`, the stable-class commit and the
cooldown-gated action dispatch (`now - lastActionTime > 800`).  The second
component is the morph target set by a dispatched action, if any
(`0` for FIST, `1` for OPEN_PALM). -/
def gestureStep (st : GestureState) (rawGesture : GestureType) (now : ℚ) :
    GestureState × Option ℚ :=
  let st1 :=
    if rawGesture = st.lastRawGesture ∧ rawGesture ≠ GestureType.UNKNOWN then
      { st with debounceCount := st.debounceCount + 1 }
    else
      { st with debounceCount := 0, lastRawGesture := rawGesture }
  if 8 ≤ st1.debounceCount then
    let st2 := { st1 with currentStableGesture := rawGesture }
    if 800 < now - st2.lastActionTime then
      if rawGesture = GestureType.FIST then ({ st2 with lastActionTime := now }, some 0)
      else if rawGesture = GestureType.OPEN_PALM then
        ({ st2 with lastActionTime := now }, some 1)
      else (st2, none)
    else (st2, none)
  else (st1, none)

/-- Run the gesture state machine over a list of classified frames, collecting
the dispatched morph-target actions in order. -/
def runGesture : GestureState → List (GestureType × ℚ) → GestureState × List ℚ
  | st, [] => (st, [])
  | st, (g, t) :: rest =>
    let p := gestureStep st g t
    let r := runGesture p.1 rest
    (r.1, p.2.toList ++ r.2)

/-- The wrist-motion orbit-control update of `predictWebcam`: per-axis
dead-zone (`|Δ| < 0.003 ⇒ 0`), then on a surviving delta the yaw target gains
`Δx·π·1.25` and the pitch target gains `Δy·π·0.6` and is clamped to
`[-0.6, 0.6]`.  Returns the new `(yawTarget, pitchTarget)` and the
`isHandRotating` flag. -/
noncomputable def wristUpdate (prevX prevY wristX wristY yawTarget pitchTarget : ℝ) :
    (ℝ × ℝ) × Bool :=
  let dx := if |wristX - prevX| < 0.003 then 0 else wristX - prevX
  let dy := if |wristY - prevY| < 0.003 then 0 else wristY - prevY
  if dx ≠ 0 ∨ dy ≠ 0 then
    ((yawTarget + dx * Real.pi * 1.25,
      max (-0.6) (min 0.6 (pitchTarget + dy * Real.pi * 0.6))), true)
  else ((yawTarget, pitchTarget), false)

/-- The nearest-photo scan of the render loop: fold over the photo slots
(given as `(idx, distance-to-camera)` pairs) with `bestDist` starting at
`Infinity` (modelled by `none`) and `bestId` starting at `-1`, keeping the
first strict improvement. -/
def nearestScan : List (ℕ × ℚ) → Option ℚ × ℤ → Option ℚ × ℤ
  | [], acc => acc
  | p :: rest, acc =>
    match acc.1 with
    | none => nearestScan rest (some p.2, (p.1 : ℤ))
    | some b =>
      if p.2 < b then nearestScan rest (some p.2, (p.1 : ℤ)) else nearestScan rest acc

/-- One render-tick update of the photo-focus state: when focus is active, no
identity is focused and slots exist, focus the nearest slot; when focus is
inactive, clear the focused identity; otherwise keep it. -/
def focusStep (active : Bool) (photos : List (ℕ × ℚ)) (id : Option ℕ) : Option ℕ :=
  if active ∧ id = none ∧ photos ≠ [] then
    if (nearestScan photos (none, -1)).2 ≠ -1 then
      some (nearestScan photos (none, -1)).2.toNat
    else id
  else if !active then none
  else id

/-- A renderable of the scene graph, as far as the bloom darken/restore
traversals are concerned: its uuid, whether it is a mesh, whether it is
tagged with the bloom layer, and its current material. -/
structure SceneObj (M : Type) where
  uuid : ℕ
  isMesh : Bool
  inBloomLayer : Bool
  material : M
  deriving DecidableEq

/-- Lookup in the `materials` record keyed by uuid. -/
def assocLookup {M : Type} (u : ℕ) : List (ℕ × M) → Option M
  | [] => none
  | p :: rest => if p.1 = u then some p.2 else assocLookup u rest

/-- Deletion from the `materials` record (`delete materials[o.uuid]`). -/
def assocErase {M : Type} (u : ℕ) (l : List (ℕ × M)) : List (ℕ × M) :=
  l.filter (fun p => p.1 != u)

/-- The `darken` traversal of the bloom pass: every mesh not tagged with the
bloom layer has its material recorded in `materials` and replaced by the flat
dark material.  The scene is traversed in order. -/
def darkenPass {M : Type} (dark : M) :
    List (SceneObj M) → List (ℕ × M) → List (SceneObj M) × List (ℕ × M)
  | [], mats => ([], mats)
  | o :: rest, mats =>
    if o.isMesh && !o.inBloomLayer then
      let r := darkenPass dark rest ((o.uuid, o.material) :: mats)
      ({ o with material := dark } :: r.1, r.2)
    else
      let r := darkenPass dark rest mats
      (o :: r.1, r.2)

/-- The `restore` traversal of the bloom pass: every object whose uuid has a
recorded material gets it back, and the record entry is deleted. -/
def restorePass {M : Type} :
    List (SceneObj M) → List (ℕ × M) → List (SceneObj M) × List (ℕ × M)
  | [], mats => ([], mats)
  | o :: rest, mats =>
    match assocLookup o.uuid mats with
    | some m =>
      let r := restorePass rest (assocErase o.uuid mats)
      ({ o with material := m } :: r.1, r.2)
    | none =>
      let r := restorePass rest mats
      (o :: r.1, r.2)

/-- Scenario frames for the cooldown claim: eight FIST frames in quick
succession, a ninth at `t = 1000` (first commit, dispatching), and a tenth at
`t = 1500`, so the two commits are 500 ms apart. -/
def fistFramesA : List (GestureType × ℚ) :=
  [(GestureType.FIST, 0), (GestureType.FIST, 1), (GestureType.FIST, 2), (GestureType.FIST, 3),
   (GestureType.FIST, 4), (GestureType.FIST, 5), (GestureType.FIST, 6), (GestureType.FIST, 7),
   (GestureType.FIST, 1000), (GestureType.FIST, 1500)]

/-- Same as `fistFramesA` with the final frame at `t = 1900`, so the two
commits are 900 ms apart. -/
def fistFramesB : List (GestureType × ℚ) :=
  [(GestureType.FIST, 0), (GestureType.FIST, 1), (GestureType.FIST, 2), (GestureType.FIST, 3),
   (GestureType.FIST, 4), (GestureType.FIST, 5), (GestureType.FIST, 6), (GestureType.FIST, 7),
   (GestureType.FIST, 1000), (GestureType.FIST, 1900)]

/-- A continuously held FIST: 27 frames every 100 ms from `t = 1000` to
`t = 3600`. -/
def heldFistFrames : List (GestureType × ℚ) :=
  [(GestureType.FIST, 1000), (GestureType.FIST, 1100), (GestureType.FIST, 1200),
   (GestureType.FIST, 1300), (GestureType.FIST, 1400), (GestureType.FIST, 1500),
   (GestureType.FIST, 1600), (GestureType.FIST, 1700), (GestureType.FIST, 1800),
   (GestureType.FIST, 1900), (GestureType.FIST, 2000), (GestureType.FIST, 2100),
   (GestureType.FIST, 2200), (GestureType.FIST, 2300), (GestureType.FIST, 2400),
   (GestureType.FIST, 2500), (GestureType.FIST, 2600), (GestureType.FIST, 2700),
   (GestureType.FIST, 2800), (GestureType.FIST, 2900), (GestureType.FIST, 3000),
   (GestureType.FIST, 3100), (GestureType.FIST, 3200), (GestureType.FIST, 3300),
   (GestureType.FIST, 3400), (GestureType.FIST, 3500), (GestureType.FIST, 3600)]

end Christmas

namespace Christmas

/-- The inverse-CDF spherical direction `(sin φ cos θ, sin φ sin θ, cos φ)`
has unit squared norm, whatever the two angle draws are. -/
theorem scatterDir_normSq (theta phi : ℝ) :
    (Real.sin phi * Real.cos theta) ^ 2 + (Real.sin phi * Real.sin theta) ^ 2
      + (Real.cos phi) ^ 2 = 1 := by
  have h1 := Real.sin_sq_add_cos_sq theta
  have h2 := Real.sin_sq_add_cos_sq phi
  linear_combination (Real.sin phi) ^ 2 * h1 + h2

/-- Cubing and the cube root `x ↦ x^(1/3)` cancel on nonnegative reals. -/
theorem cbrt_cube (a : ℝ) (ha : 0 ≤ a) : ((a ^ (3:ℕ) : ℝ)) ^ ((1:ℝ) / 3) = a := by
  rw [← Real.rpow_natCast a 3, ← Real.rpow_mul ha]
  norm_num

/-- From `S·r ≤ c·r²` with `r > 0` one may cancel `r`. -/
theorem cancel_right_pos (S c r : ℝ) (h : S * r ≤ c * r ^ 2) (hr : 0 < r) :
    S ≤ c * r := by nlinarith

/-- Squared-distance bounds survive the jitter displacement of up to `0.15` on
each of the x and z axes: a point at distance `r ∈ [3.36, 16]` from the center
stays within distance `[r - 0.3, r + 0.3]`, hence within `[3.06, 16.3]`. -/
theorem jitter_distSq_bounds (bx by0 bz jx jz r : ℝ)
    (hb : bx ^ 2 + by0 ^ 2 + bz ^ 2 = r ^ 2)
    (hr1 : 3.36 ≤ r) (hr2 : r ≤ 16)
    (hjx : jx ^ 2 ≤ 0.0225) (hjz : jz ^ 2 ≤ 0.0225) :
    (3.36 - 0.3) ^ 2 ≤ (bx + jx) ^ 2 + by0 ^ 2 + (bz + jz) ^ 2
    ∧ (bx + jx) ^ 2 + by0 ^ 2 + (bz + jz) ^ 2 ≤ (16 + 0.3) ^ 2 := by
  have hr0 : (0:ℝ) < r := by linarith
  have hbb : bx ^ 2 + bz ^ 2 ≤ r ^ 2 := by
    have h := sq_nonneg by0
    linarith
  have hjj : jx ^ 2 + jz ^ 2 ≤ 0.045 := by linarith
  have hprod : (bx ^ 2 + bz ^ 2) * (jx ^ 2 + jz ^ 2) ≤ r ^ 2 * 0.045 :=
    mul_le_mul hbb hjj (by positivity) (by positivity)
  have hS2 : (bx * jx + bz * jz) ^ 2 ≤ r ^ 2 * 0.045 := by
    have lag : (bx * jx + bz * jz) ^ 2 + (bx * jz - bz * jx) ^ 2
        = (bx ^ 2 + bz ^ 2) * (jx ^ 2 + jz ^ 2) := by ring
    have h := sq_nonneg (bx * jz - bz * jx)
    linarith
  have e1 : 0 ≤ 4 * (bx * jx + bz * jz) ^ 2 - 2.4 * ((bx * jx + bz * jz) * r)
      + 0.36 * r ^ 2 := by
    calc (0:ℝ) ≤ (2 * (bx * jx + bz * jz) - 0.6 * r) ^ 2 := sq_nonneg _
      _ = 4 * (bx * jx + bz * jz) ^ 2 - 2.4 * ((bx * jx + bz * jz) * r) + 0.36 * r ^ 2 := by
          ring
  have e2 : 0 ≤ 4 * (bx * jx + bz * jz) ^ 2 + 2.4 * ((bx * jx + bz * jz) * r)
      + 0.36 * r ^ 2 := by
    calc (0:ℝ) ≤ (2 * (bx * jx + bz * jz) + 0.6 * r) ^ 2 := sq_nonneg _
      _ = 4 * (bx * jx + bz * jz) ^ 2 + 2.4 * ((bx * jx + bz * jz) * r) + 0.36 * r ^ 2 := by
          ring
  have hSr : (bx * jx + bz * jz) * r ≤ 0.225 * r ^ 2 := by linarith
  have hSr' : -(bx * jx + bz * jz) * r ≤ 0.225 * r ^ 2 := by linarith
  have hSle : bx * jx + bz * jz ≤ 0.225 * r := cancel_right_pos _ _ _ hSr hr0
  have hSge : -(bx * jx + bz * jz) ≤ 0.225 * r := cancel_right_pos _ _ _ hSr' hr0
  have expand : (bx + jx) ^ 2 + by0 ^ 2 + (bz + jz) ^ 2
      = r ^ 2 + 2 * (bx * jx + bz * jz) + (jx ^ 2 + jz ^ 2) := by linear_combination hb
  have hquad1 : 0 ≤ r ^ 2 - 0.45 * r - 9.7776 := by
    calc (0:ℝ) ≤ (r - 3.36) * (r + 2.91) :=
          mul_nonneg (by linarith) (by linarith)
      _ = r ^ 2 - 0.45 * r - 9.7776 := by ring
  have hquad2 : 0 ≤ 256 - r ^ 2 := by
    calc (0:ℝ) ≤ (16 - r) * (r + 16) := mul_nonneg (by linarith) (by linarith)
      _ = 256 - r ^ 2 := by ring
  have hj0 : 0 ≤ jx ^ 2 + jz ^ 2 := by positivity
  constructor
  · rw [expand]; linarith
  · rw [expand]; linarith

/-- The inverse-cube-root radius `(w·(b³ - a³) + a³)^(1/3)` lies in `[a, b]`
for a radius draw `w ∈ [0, 1)` and shell bounds `0 ≤ a ≤ b`. -/
theorem cbrt_interp_bounds (a b w : ℝ) (ha : 0 ≤ a) (hab : a ≤ b)
    (hw0 : 0 ≤ w) (hw1 : w < 1) :
    a ≤ (w * (b ^ (3:ℕ) - a ^ (3:ℕ)) + a ^ (3:ℕ)) ^ ((1:ℝ) / 3)
    ∧ (w * (b ^ (3:ℕ) - a ^ (3:ℕ)) + a ^ (3:ℕ)) ^ ((1:ℝ) / 3) ≤ b := by
  have hb : 0 ≤ b := ha.trans hab
  have hdiff : 0 ≤ b ^ (3:ℕ) - a ^ (3:ℕ) := by
    have h := pow_le_pow_left₀ ha hab 3
    linarith
  have ha3 : 0 ≤ a ^ (3:ℕ) := by positivity
  have hX0 : 0 ≤ w * (b ^ (3:ℕ) - a ^ (3:ℕ)) + a ^ (3:ℕ) :=
    add_nonneg (mul_nonneg hw0 hdiff) ha3
  have hXa : a ^ (3:ℕ) ≤ w * (b ^ (3:ℕ) - a ^ (3:ℕ)) + a ^ (3:ℕ) := by
    have h := mul_nonneg hw0 hdiff
    linarith
  have hXb : w * (b ^ (3:ℕ) - a ^ (3:ℕ)) + a ^ (3:ℕ) ≤ b ^ (3:ℕ) := by
    have h : w * (b ^ (3:ℕ) - a ^ (3:ℕ)) ≤ b ^ (3:ℕ) - a ^ (3:ℕ) :=
      mul_le_of_le_one_left hdiff (le_of_lt hw1)
    linarith
  constructor
  · calc a = ((a ^ (3:ℕ) : ℝ)) ^ ((1:ℝ) / 3) := (cbrt_cube a ha).symm
      _ ≤ _ := Real.rpow_le_rpow ha3 hXa (by norm_num)
  · calc (w * (b ^ (3:ℕ) - a ^ (3:ℕ)) + a ^ (3:ℕ)) ^ ((1:ℝ) / 3)
        ≤ ((b ^ (3:ℕ) : ℝ)) ^ ((1:ℝ) / 3) := Real.rpow_le_rpow hX0 hXb (by norm_num)
      _ = b := cbrt_cube b hb

/-- The jitter perturbation `0.15·sin` has square at most `0.0225`. -/
theorem jitter_sin_sq_le (t : ℝ) : (0.15 * Real.sin t) ^ 2 ≤ 0.0225 := by
  have h1 := Real.neg_one_le_sin t
  have h2 := Real.sin_le_one t
  nlinarith

/-- The jitter perturbation `0.15·cos` has square at most `0.0225`. -/
theorem jitter_cos_sq_le (t : ℝ) : (0.15 * Real.cos t) ^ 2 ≤ 0.0225 := by
  have h1 := Real.neg_one_le_cos t
  have h2 := Real.cos_le_one t
  nlinarith

/-- Claim C3 (amended): for every scatter position, whatever the random draws
in `[0,1)`: a core-sampled point lies within `CORE_RADIUS` of the formation
center; a halo-sampled point that does not take the 30% jitter branch lies
between `1.05·CORE_RADIUS` and `OUTER_RADIUS`; a halo-sampled point in the
jitter branch may leave that band by at most `0.3`, lying between
`1.05·CORE_RADIUS - 0.3` and `OUTER_RADIUS + 0.3`. -/
theorem C3_scatter_bounds (ov : Option Bool) (coin u v w jc sd : ℝ)
    (hw0 : 0 ≤ w) (hw1 : w < 1) :
    ((getIsotropicScatterPos ov coin u v w jc sd).2 = false →
      distSq (getIsotropicScatterPos ov coin u v w jc sd).1 scatterCenter ≤ CORE_RADIUS ^ 2)
    ∧ ((getIsotropicScatterPos ov coin u v w jc sd).2 = true → ¬ jc < 0.3 →
      (1.05 * CORE_RADIUS) ^ 2
          ≤ distSq (getIsotropicScatterPos ov coin u v w jc sd).1 scatterCenter
      ∧ distSq (getIsotropicScatterPos ov coin u v w jc sd).1 scatterCenter
          ≤ OUTER_RADIUS ^ 2)
    ∧ ((getIsotropicScatterPos ov coin u v w jc sd).2 = true → jc < 0.3 →
      (1.05 * CORE_RADIUS - 0.3) ^ 2
          ≤ distSq (getIsotropicScatterPos ov coin u v w jc sd).1 scatterCenter
      ∧ distSq (getIsotropicScatterPos ov coin u v w jc sd).1 scatterCenter
          ≤ (OUTER_RADIUS + 0.3) ^ 2) := by
  unfold getIsotropicScatterPos
  have hunit := scatterDir_normSq (2 * Real.pi * u) (Real.arccos (2 * v - 1))
  cases hIC : Option.getD ov (decide (coin < coreRatio)) with
  | true =>
    simp only [hIC, if_true, reduceIte]
    refine ⟨fun _ => ?_, fun h => by simp at h, fun h => by simp at h⟩
    have hq : distSq
        ⟨Real.sin (Real.arccos (2 * v - 1)) * Real.cos (2 * Real.pi * u)
            * (CORE_RADIUS * w ^ ((1:ℝ) / 3)) + 0,
         Real.sin (Real.arccos (2 * v - 1)) * Real.sin (2 * Real.pi * u)
            * (CORE_RADIUS * w ^ ((1:ℝ) / 3)) + SCATTER_CENTER_Y,
         Real.cos (Real.arccos (2 * v - 1)) * (CORE_RADIUS * w ^ ((1:ℝ) / 3)) + 0⟩
        scatterCenter = (CORE_RADIUS * w ^ ((1:ℝ) / 3)) ^ 2 := by
      simp only [distSq, scatterCenter]
      linear_combination (CORE_RADIUS * w ^ ((1:ℝ) / 3)) ^ 2 * hunit
    rw [hq]
    have hcr : (0:ℝ) ≤ CORE_RADIUS := by norm_num [CORE_RADIUS]
    have h1 : 0 ≤ w ^ ((1:ℝ) / 3) := Real.rpow_nonneg hw0 _
    have h2 : w ^ ((1:ℝ) / 3) ≤ 1 := Real.rpow_le_one hw0 (le_of_lt hw1) (by norm_num)
    have hrle : CORE_RADIUS * w ^ ((1:ℝ) / 3) ≤ CORE_RADIUS := by nlinarith
    exact pow_le_pow_left₀ (by positivity) hrle 2
  | false =>
    simp only [hIC, Bool.false_eq_true, if_false, reduceIte]
    have hbounds := cbrt_interp_bounds (CORE_RADIUS * 1.05) OUTER_RADIUS w
      (by norm_num [CORE_RADIUS]) (by norm_num [CORE_RADIUS, OUTER_RADIUS]) hw0 hw1
    set r := (w * (OUTER_RADIUS ^ (3:ℕ) - (CORE_RADIUS * 1.05) ^ (3:ℕ))
        + (CORE_RADIUS * 1.05) ^ (3:ℕ)) ^ ((1:ℝ) / 3) with hrdef
    obtain ⟨hra, hrb⟩ := hbounds
    have hq0 : (Real.sin (Real.arccos (2 * v - 1)) * Real.cos (2 * Real.pi * u) * r + 0) ^ 2
        + (Real.sin (Real.arccos (2 * v - 1)) * Real.sin (2 * Real.pi * u) * r) ^ 2
        + (Real.cos (Real.arccos (2 * v - 1)) * r + 0) ^ 2 = r ^ 2 := by
      linear_combination r ^ 2 * hunit
    by_cases hjc : jc < 0.3
    · simp only [hjc, if_true, reduceIte]
      refine ⟨fun h => by simp at h, fun _ h => absurd trivial h, fun _ _ => ?_⟩
      have hjx := jitter_sin_sq_le
        ((Real.sin (Real.arccos (2 * v - 1)) * Real.sin (2 * Real.pi * u) * r
            + SCATTER_CENTER_Y) * 1.7 + sd * 100)
      have hjz := jitter_cos_sq_le
        ((Real.sin (Real.arccos (2 * v - 1)) * Real.cos (2 * Real.pi * u) * r + 0
            + 0.15 * Real.sin ((Real.sin (Real.arccos (2 * v - 1))
                * Real.sin (2 * Real.pi * u) * r + SCATTER_CENTER_Y) * 1.7 + sd * 100)) * 1.7
            + sd * 100)
      have hr336 : (3.36:ℝ) ≤ r := by
        have : CORE_RADIUS * 1.05 = (3.36:ℝ) := by norm_num [CORE_RADIUS]
        linarith [hra]
      have hr16 : r ≤ 16 := by
        have : OUTER_RADIUS = (16:ℝ) := by norm_num [OUTER_RADIUS]
        linarith [hrb]
      have hmain := jitter_distSq_bounds
        (Real.sin (Real.arccos (2 * v - 1)) * Real.cos (2 * Real.pi * u) * r + 0)
        (Real.sin (Real.arccos (2 * v - 1)) * Real.sin (2 * Real.pi * u) * r)
        (Real.cos (Real.arccos (2 * v - 1)) * r + 0)
        (0.15 * Real.sin ((Real.sin (Real.arccos (2 * v - 1))
            * Real.sin (2 * Real.pi * u) * r + SCATTER_CENTER_Y) * 1.7 + sd * 100))
        (0.15 * Real.cos ((Real.sin (Real.arccos (2 * v - 1)) * Real.cos (2 * Real.pi * u) * r
            + 0 + 0.15 * Real.sin ((Real.sin (Real.arccos (2 * v - 1))
                * Real.sin (2 * Real.pi * u) * r + SCATTER_CENTER_Y) * 1.7 + sd * 100)) * 1.7
            + sd * 100))
        r hq0 hr336 hr16 hjx hjz
      constructor
      · have hc : (1.05 * CORE_RADIUS - 0.3) ^ 2 = ((3.36:ℝ) - 0.3) ^ 2 := by
          norm_num [CORE_RADIUS]
        rw [hc]
        simp only [distSq, scatterCenter, SCATTER_CENTER_Y] at hmain ⊢
        ring_nf at hmain ⊢
        linarith [hmain.1]
      · have hc : (OUTER_RADIUS + 0.3) ^ 2 = ((16:ℝ) + 0.3) ^ 2 := by
          norm_num [OUTER_RADIUS]
        rw [hc]
        simp only [distSq, scatterCenter, SCATTER_CENTER_Y] at hmain ⊢
        ring_nf at hmain ⊢
        linarith [hmain.2]
    · simp only [hjc, if_false, reduceIte]
      refine ⟨fun h => by simp at h, fun _ _ => ?_, fun _ h => h.elim⟩
      have hq : distSq
          ⟨Real.sin (Real.arccos (2 * v - 1)) * Real.cos (2 * Real.pi * u) * r + 0,
           Real.sin (Real.arccos (2 * v - 1)) * Real.sin (2 * Real.pi * u) * r
              + SCATTER_CENTER_Y,
           Real.cos (Real.arccos (2 * v - 1)) * r + 0⟩ scatterCenter = r ^ 2 := by
        simp only [distSq, scatterCenter]
        linear_combination r ^ 2 * hunit
      rw [hq]
      constructor
      · have hc : (1.05 * CORE_RADIUS) ^ 2 = ((3.36:ℝ)) ^ 2 := by norm_num [CORE_RADIUS]
        rw [hc]
        have hr336 : (3.36:ℝ) ≤ r := by
          have : CORE_RADIUS * 1.05 = (3.36:ℝ) := by norm_num [CORE_RADIUS]
          linarith [hra]
        exact pow_le_pow_left₀ (by norm_num) hr336 2
      · have hr0 : (0:ℝ) ≤ r := by
          have : (0:ℝ) ≤ CORE_RADIUS * 1.05 := by norm_num [CORE_RADIUS]
          linarith [hra]
        exact pow_le_pow_left₀ hr0 hrb 2

/-- Claim C3 counterexample: a concrete halo draw in the 30% jitter branch
produces a point strictly closer to the formation center than
`1.05·CORE_RADIUS`, refuting the claimed lower bound for the jitter branch.
The draws are `u = v = w = jc = 0` and seed draw `(2π - 0.34)/100`, which
place the un-jittered point at radius exactly `3.36` and then pull it inward
by `0.15·cos 0.34`. -/
theorem C3_counterexample :
    (getIsotropicScatterPos (some false) 0 0 0 0 0 ((2 * Real.pi - 0.34) / 100)).2 = true
    ∧ distSq (getIsotropicScatterPos (some false) 0 0 0 0 0 ((2 * Real.pi - 0.34) / 100)).1
        scatterCenter < (1.05 * CORE_RADIUS) ^ 2 := by
  have hc1 : (0:ℝ) < Real.cos 0.34 := by
    apply Real.cos_pos_of_mem_Ioo
    constructor
    · have := Real.pi_gt_three
      linarith
    · have := Real.pi_gt_three
      linarith
  have hc2 : Real.cos 0.34 ≤ 1 := Real.cos_le_one _
  have e1 : Real.sin (Real.arccos (2 * (0:ℝ) - 1)) = 0 := by
    norm_num [Real.arccos_neg_one, Real.sin_pi]
  have e2 : Real.cos (Real.arccos (2 * (0:ℝ) - 1)) = -1 := by
    norm_num [Real.arccos_neg_one, Real.cos_pi]
  have er : ((0:ℝ) * (OUTER_RADIUS ^ (3:ℕ) - (CORE_RADIUS * 1.05) ^ (3:ℕ))
      + (CORE_RADIUS * 1.05) ^ (3:ℕ)) ^ ((1:ℝ) / 3) = 3.36 := by
    rw [zero_mul, zero_add]
    rw [show CORE_RADIUS * 1.05 = (3.36:ℝ) by norm_num [CORE_RADIUS]]
    exact cbrt_cube 3.36 (by norm_num)
  have es1 : Real.sin (0.34 + (2 * Real.pi - 0.34)) = 0 := by
    rw [show (0.34:ℝ) + (2 * Real.pi - 0.34) = 2 * Real.pi by ring]
    exact Real.sin_two_pi
  have es2 : Real.sin ((2 * Real.pi - 0.34) + 0.34) = 0 := by
    rw [show (2 * Real.pi - 0.34) + (0.34:ℝ) = 2 * Real.pi by ring]
    exact Real.sin_two_pi
  have ec1 : Real.cos (2 * Real.pi - 0.34) = Real.cos 0.34 := Real.cos_two_pi_sub 0.34
  unfold getIsotropicScatterPos
  simp only [Option.getD]
  norm_num [er, e1, e2, es1, es2, ec1, div_mul_cancel₀, Real.sin_two_pi,
    SCATTER_CENTER_Y, distSq, scatterCenter, CORE_RADIUS]
  have er2 : ((592704:ℝ) / 15625) ^ ((1:ℝ) / 3) = 84 / 25 := by
    rw [show ((592704:ℝ) / 15625) = ((84:ℝ) / 25) ^ (3:ℕ) by norm_num]
    exact cbrt_cube _ (by norm_num)
  rw [er2]
  nlinarith [hc1, hc2]

/-- Witness for C3 at a concrete core draw (`w = 0`, overridden core flag). -/
theorem C3_scatter_bounds_witness :
    (0:ℝ) ≤ 0 ∧ (0:ℝ) < 1
    ∧ distSq (getIsotropicScatterPos (some true) 0 0 0 0 0 0).1 scatterCenter
        ≤ CORE_RADIUS ^ 2 :=
  ⟨le_refl 0, by norm_num,
    (C3_scatter_bounds (some true) 0 0 0 0 0 0 (le_refl 0) (by norm_num)).1
      (by norm_num [getIsotropicScatterPos])⟩

/-- Claim C2: the easing function `eased(x) = 4x³` for `x < 0.5`, else
`1 - (-2x+2)³/2`, is monotone non-decreasing on `[0,1]`, with
`eased 0 = 0`, `eased 1 = 1` and `eased 0.5 = 0.5`. -/
theorem C2_eased_properties :
    (∀ x y : ℝ, 0 ≤ x → x ≤ y → y ≤ 1 → easeInOutCubic x ≤ easeInOutCubic y)
    ∧ easeInOutCubic 0 = 0
    ∧ easeInOutCubic 1 = 1
    ∧ easeInOutCubic 0.5 = 0.5 := by
  refine ⟨?_, ?_, ?_, ?_⟩
  · intro x y hx hxy hy
    unfold easeInOutCubic
    split_ifs with h1 h2 h3
    · nlinarith [sq_nonneg (x + y), sq_nonneg (x - y), mul_nonneg hx (hx.trans hxy)]
    · nlinarith [sq_nonneg (2 - 2 * y), sq_nonneg (1 - 2 * x),
        mul_nonneg hx hx, sq_nonneg (2 * x - 2 * y + 1)]
    · linarith
    · nlinarith [sq_nonneg ((2 - 2 * x) + (2 - 2 * y)), sq_nonneg ((2 - 2 * x) - (2 - 2 * y)),
        mul_nonneg (by linarith : (0:ℝ) ≤ 2 - 2 * y) (by linarith : (0:ℝ) ≤ 2 - 2 * x)]
  · unfold easeInOutCubic; norm_num
  · unfold easeInOutCubic; norm_num
  · unfold easeInOutCubic; norm_num

/-- Witness for C2 at the concrete pair `x = 0`, `y = 1`. -/
theorem C2_eased_properties_witness :
    (0:ℝ) ≤ 0 ∧ (0:ℝ) ≤ 1 ∧ (1:ℝ) ≤ 1 ∧ easeInOutCubic 0 ≤ easeInOutCubic 1 :=
  ⟨le_refl 0, by norm_num, le_refl 1,
    C2_eased_properties.1 0 1 (le_refl 0) (by norm_num) (le_refl 1)⟩

/-- Claim C4 (amended): the vertex shader and `MorphingInstances.update` use
the identical cubic easing function and the identical eased interpolation
between assembled and scatter positions (`mix` agrees with `lerpVectors`),
but their idle-motion terms differ, so the produced positions are in general
different (see the counterexample). -/
theorem C4_shared_eased_interpolation (m : ℝ) (a b : Vec3) :
    easeInOutCubic m = morphingInstancesEased m
    ∧ glslMix a b (easeInOutCubic m) = lerpVec a b (morphingInstancesEased m) := by
  refine ⟨rfl, ?_⟩
  unfold glslMix lerpVec
  simp only [Vec3.mk.injEq, easeInOutCubic, morphingInstancesEased]
  refine ⟨by ring, by ring, by ring⟩

/-- Claim C4 counterexample: at morph value `1`, time `0`, seed `0`, index `0`,
halo flag set, and coincident assembled/scatter position `(0,0,0)`, the shader
writes `(0, 0.2, 0)` while the instance engine writes `(0, 0.02, 0)`: the two
idle-motion policies do not agree. -/
theorem C4_counterexample :
    shaderVertexPos 1 0 ⟨0, 0, 0⟩ ⟨0, 0, 0⟩ 0 1
      ≠ morphingInstancesUpdatePos 1 0 ⟨0, 0, 0⟩ ⟨0, 0, 0⟩ 0 true := by
  have h1 : shaderVertexPos 1 0 ⟨0, 0, 0⟩ ⟨0, 0, 0⟩ 0 1 = ⟨0, 0.2, 0⟩ := by
    norm_num [shaderVertexPos, easeInOutCubic, glslMix, Real.sin_zero, Real.cos_zero]
  have h2 : morphingInstancesUpdatePos 1 0 ⟨0, 0, 0⟩ ⟨0, 0, 0⟩ 0 true = ⟨0, 0.02, 0⟩ := by
    norm_num [morphingInstancesUpdatePos, morphingInstancesEased, lerpVec,
      Real.sin_zero, Real.cos_zero]
  rw [h1, h2]
  simp only [ne_eq, Vec3.mk.injEq]
  norm_num

/-- The morph smoothing from `0` toward target `1` has explicit value
`1 - (19/20)^n` for the first `135` ticks (the smoothing branch is taken
at every one of those ticks). -/
theorem morphIter_closed_form :
    ∀ n : ℕ, n ≤ 135 → morphIter 1 n 0 = 1 - (19/20) ^ n := by
  intro n
  induction n with
  | zero => intro _; simp [morphIter]
  | succ k ih =>
    intro hk
    have hval := ih (by omega)
    show morphStep 1 (morphIter 1 k 0) = _
    rw [hval]
    unfold morphStep
    have habs : |(1:ℚ) - (1 - (19/20) ^ k)| = (19/20) ^ k := by
      rw [show (1:ℚ) - (1 - (19/20) ^ k) = (19/20) ^ k by ring]
      exact abs_of_nonneg (by positivity)
    rw [habs]
    have hgt : (0.001:ℚ) < (19/20) ^ k := by
      calc (0.001:ℚ) < (19/20) ^ 134 := by norm_num
        _ ≤ (19/20) ^ k := pow_le_pow_of_le_one (by norm_num) (by norm_num) (by omega)
    rw [if_pos hgt]
    ring

/-- Claim C6 (amended): starting from morph current `0` with target `1`, the
per-tick smoothing reaches current exactly `1` after finitely many ticks
(`136` suffice) and stays there; at that state the eased interpolation factor
is `1`, so the interpolated base position of every formation point equals its
scatter coordinate.  The full written position additionally contains the
idle-motion perturbation, since `morph = 1 > 0.01` keeps the idle branch
active (see the counterexample). -/
theorem C6_morph_settles :
    morphIter 1 136 0 = 1
    ∧ (∀ n : ℕ, morphIter 1 (136 + n) 0 = 1)
    ∧ (∀ t s : Vec3, lerpVec t s (morphingInstancesEased 1) = s) := by
  have h135 := morphIter_closed_form 135 (le_refl 135)
  have hsnap : morphIter 1 136 0 = 1 := by
    show morphStep 1 (morphIter 1 135 0) = 1
    rw [h135]
    unfold morphStep
    have habs : |(1:ℚ) - (1 - (19/20) ^ 135)| = (19/20) ^ 135 := by
      rw [show (1:ℚ) - (1 - (19/20) ^ 135) = (19/20) ^ 135 by ring]
      exact abs_of_nonneg (by positivity)
    rw [habs]
    rw [if_neg (by norm_num)]
  refine ⟨hsnap, ?_, ?_⟩
  · intro n
    induction n with
    | zero => exact hsnap
    | succ k ih =>
      show morphStep 1 (morphIter 1 (136 + k) 0) = 1
      rw [ih]
      unfold morphStep
      norm_num
  · intro t s
    have he : morphingInstancesEased 1 = 1 := by norm_num [morphingInstancesEased]
    rw [he]
    unfold lerpVec
    obtain ⟨sx, sy, sz⟩ := s
    simp only [Vec3.mk.injEq]
    refine ⟨by ring, by ring, by ring⟩

/-- A frame whose raw class differs from the remembered raw class, or is
UNKNOWN, resets the debounce counter and re-records the raw class, and
dispatches nothing. -/
theorem gestureStep_reset (st : GestureState) (raw : GestureType) (now : ℚ)
    (h : raw ≠ st.lastRawGesture ∨ raw = GestureType.UNKNOWN) :
    gestureStep st raw now
      = (⟨raw, 0, st.currentStableGesture, st.lastActionTime⟩, none) := by
  unfold gestureStep
  have hcond : ¬ (raw = st.lastRawGesture ∧ raw ≠ GestureType.UNKNOWN) := by
    rcases h with h | h
    · exact fun hc => h hc.1
    · exact fun hc => hc.2 h
  rw [if_neg hcond]
  norm_num

/-- A frame whose raw class matches the remembered non-UNKNOWN raw class, with
the counter still below the threshold after incrementing, only increments the
counter. -/
theorem gestureStep_inc (st : GestureState) (g : GestureType) (now : ℚ)
    (h1 : st.lastRawGesture = g) (hg : g ≠ GestureType.UNKNOWN)
    (h3 : st.debounceCount + 1 < 8) :
    gestureStep st g now = ({ st with debounceCount := st.debounceCount + 1 }, none) := by
  unfold gestureStep
  have hcond : g = st.lastRawGesture ∧ g ≠ GestureType.UNKNOWN := ⟨h1.symm, hg⟩
  rw [if_pos hcond]
  dsimp only
  rw [if_neg (show ¬ (8:ℕ) ≤ st.debounceCount + 1 by omega)]

/-- Once the incremented counter reaches the threshold, the frame's raw class
is committed as the stable class, whatever the cooldown decides. -/
theorem gestureStep_commit_stable (st : GestureState) (g : GestureType) (now : ℚ)
    (h1 : st.lastRawGesture = g) (hg : g ≠ GestureType.UNKNOWN)
    (h3 : 8 ≤ st.debounceCount + 1) :
    (gestureStep st g now).1.currentStableGesture = g
    ∧ (gestureStep st g now).1.debounceCount = st.debounceCount + 1 := by
  unfold gestureStep
  have hcond : g = st.lastRawGesture ∧ g ≠ GestureType.UNKNOWN := ⟨h1.symm, hg⟩
  rw [if_pos hcond]
  dsimp only
  rw [if_pos (show (8:ℕ) ≤ st.debounceCount + 1 from h3)]
  split_ifs <;> simp

/-- Unfolding lemma: one frame of `runGesture`. -/
theorem runGesture_cons (st : GestureState) (g : GestureType) (t : ℚ)
    (rest : List (GestureType × ℚ)) :
    runGesture st ((g, t) :: rest)
      = ((runGesture (gestureStep st g t).1 rest).1,
         (gestureStep st g t).2.toList ++ (runGesture (gestureStep st g t).1 rest).2) := rfl

/-- Unfolding lemma: `runGesture` on no frames. -/
theorem runGesture_nil (st : GestureState) : runGesture st [] = (st, []) := rfl

/-- Running the gesture machine distributes over list append. -/
theorem runGesture_append (l1 l2 : List (GestureType × ℚ)) (st : GestureState) :
    runGesture st (l1 ++ l2)
      = ((runGesture (runGesture st l1).1 l2).1,
         (runGesture st l1).2 ++ (runGesture (runGesture st l1).1 l2).2) := by
  induction l1 generalizing st with
  | nil => simp [runGesture]
  | cons hd tl ih =>
    obtain ⟨g, t⟩ := hd
    simp only [List.cons_append, runGesture, List.append_eq]
    rw [ih]
    simp

/-- Feeding `k` frames of the already-remembered non-UNKNOWN class `g`, with
the counter staying below the threshold, just accumulates the counter and
dispatches nothing. -/
theorem runGesture_replicate_same (g : GestureType) (hg : g ≠ GestureType.UNKNOWN) (τ : ℚ) :
    ∀ (k : ℕ) (st : GestureState), st.lastRawGesture = g → st.debounceCount + k < 8 →
      runGesture st (List.replicate k (g, τ))
        = ({ st with debounceCount := st.debounceCount + k }, []) := by
  intro k
  induction k with
  | zero =>
    intro st h1 h2
    simp [runGesture, List.replicate]
  | succ n ih =>
    intro st h1 h2
    rw [List.replicate_succ]
    have hstep := gestureStep_inc st g τ h1 hg (by omega)
    rw [runGesture_cons, hstep]
    dsimp only
    rw [ih { st with debounceCount := st.debounceCount + 1 } h1 (by dsimp only; omega)]
    simp only [Option.toList, List.nil_append]
    have harith : st.debounceCount + 1 + n = st.debounceCount + (n + 1) := by omega
    rw [harith]

/-- Claim C1 counterexample: from the initial state, eight consecutive FIST
frames do not commit FIST — the first frame of the run resets the counter
rather than incrementing it, so the counter only reaches 7 on the 8th frame
and the stable class is still UNKNOWN. -/
theorem C1_counterexample :
    (runGesture initGestureState
        (List.replicate 8 (GestureType.FIST, (0:ℚ)))).1.currentStableGesture
      = GestureType.UNKNOWN
    ∧ (runGesture initGestureState
        (List.replicate 8 (GestureType.FIST, (0:ℚ)))).1.debounceCount = 7 := by
  have hstep0 := gestureStep_reset initGestureState GestureType.FIST 0
    (Or.inl (by simp [initGestureState]))
  rw [show (8:ℕ) = 7 + 1 from rfl, List.replicate_succ]
  rw [runGesture_cons, hstep0]
  dsimp only
  rw [runGesture_replicate_same GestureType.FIST (by simp) 0 7
    ⟨GestureType.FIST, 0, initGestureState.currentStableGesture,
      initGestureState.lastActionTime⟩ rfl (by norm_num)]
  exact ⟨rfl, rfl⟩

/-- Claim C1 (amended): feeding the same non-UNKNOWN raw class for nine
consecutive frames — the first frame of the changed class resets the counter
and re-records the class, the next eight increment it to the threshold —
commits that class as the stable class on the 9th frame and not earlier; and
on any frame whose raw class differs from the remembered raw class, or whose
raw class is UNKNOWN, the debounce counter resets to 0 and the remembered raw
class is updated. -/
theorem C1_debounce_commit (g : GestureType) (hg : g ≠ GestureType.UNKNOWN)
    (st : GestureState) (hlast : st.lastRawGesture ≠ g) (τ : ℚ) :
    (∀ k : ℕ, k ≤ 8 →
      (runGesture st (List.replicate k (g, τ))).1.currentStableGesture
        = st.currentStableGesture)
    ∧ (runGesture st (List.replicate 9 (g, τ))).1.currentStableGesture = g
    ∧ (∀ (st' : GestureState) (raw : GestureType) (now : ℚ),
        raw ≠ st'.lastRawGesture ∨ raw = GestureType.UNKNOWN →
        (gestureStep st' raw now).1.debounceCount = 0
        ∧ (gestureStep st' raw now).1.lastRawGesture = raw) := by
  have hstep0 := gestureStep_reset st g τ (Or.inl (Ne.symm hlast))
  refine ⟨?_, ?_, ?_⟩
  · intro k hk
    match k with
    | 0 => simp [runGesture, List.replicate]
    | (j + 1) =>
      rw [List.replicate_succ]
      rw [runGesture_cons, hstep0]
      dsimp only
      rw [runGesture_replicate_same g hg τ j
        ⟨g, 0, st.currentStableGesture, st.lastActionTime⟩ rfl (by dsimp only; omega)]
  · rw [show (9:ℕ) = 8 + 1 from rfl, List.replicate_succ]
    rw [runGesture_cons, hstep0]
    dsimp only
    rw [show (8:ℕ) = 7 + 1 from rfl, List.replicate_succ', runGesture_append]
    rw [runGesture_replicate_same g hg τ 7
      ⟨g, 0, st.currentStableGesture, st.lastActionTime⟩ rfl (by dsimp only; omega)]
    dsimp only
    rw [runGesture_cons, runGesture_nil]
    dsimp only
    exact (gestureStep_commit_stable _ g τ rfl hg (by dsimp only; omega)).1
  · intro st' raw now h
    rw [gestureStep_reset st' raw now h]
    exact ⟨rfl, rfl⟩

/-- Witness for C1 (amended) at `g = FIST` from the initial state: the 9th
frame commits. -/
theorem C1_debounce_commit_witness :
    (runGesture initGestureState
        (List.replicate 9 (GestureType.FIST, (0:ℚ)))).1.currentStableGesture
      = GestureType.FIST :=
  (C1_debounce_commit GestureType.FIST (by decide) initGestureState (by decide) 0).2.1

/-- Claim C5: dispatch is gated by the `now - lastActionTime > 800` cooldown:
two stable FIST commits 500 ms apart (at `t = 1000` and `t = 1500`) dispatch
the assemble action (morph target `0`) exactly once, while the same two
commits 900 ms apart (at `t = 1000` and `t = 1900`) dispatch it twice. -/
theorem C5_cooldown_gating :
    (runGesture initGestureState fistFramesA).2 = [0]
    ∧ (runGesture initGestureState fistFramesB).2 = [0, 0] := by
  have a1 : gestureStep initGestureState GestureType.FIST 0
      = (⟨GestureType.FIST, 0, GestureType.UNKNOWN, 0⟩, none) := by
    simp [gestureStep, initGestureState]
  have a2 : gestureStep ⟨GestureType.FIST, 0, GestureType.UNKNOWN, 0⟩ GestureType.FIST 1
      = (⟨GestureType.FIST, 1, GestureType.UNKNOWN, 0⟩, none) := by simp [gestureStep]
  have a3 : gestureStep ⟨GestureType.FIST, 1, GestureType.UNKNOWN, 0⟩ GestureType.FIST 2
      = (⟨GestureType.FIST, 2, GestureType.UNKNOWN, 0⟩, none) := by simp [gestureStep]
  have a4 : gestureStep ⟨GestureType.FIST, 2, GestureType.UNKNOWN, 0⟩ GestureType.FIST 3
      = (⟨GestureType.FIST, 3, GestureType.UNKNOWN, 0⟩, none) := by simp [gestureStep]
  have a5 : gestureStep ⟨GestureType.FIST, 3, GestureType.UNKNOWN, 0⟩ GestureType.FIST 4
      = (⟨GestureType.FIST, 4, GestureType.UNKNOWN, 0⟩, none) := by simp [gestureStep]
  have a6 : gestureStep ⟨GestureType.FIST, 4, GestureType.UNKNOWN, 0⟩ GestureType.FIST 5
      = (⟨GestureType.FIST, 5, GestureType.UNKNOWN, 0⟩, none) := by simp [gestureStep]
  have a7 : gestureStep ⟨GestureType.FIST, 5, GestureType.UNKNOWN, 0⟩ GestureType.FIST 6
      = (⟨GestureType.FIST, 6, GestureType.UNKNOWN, 0⟩, none) := by simp [gestureStep]
  have a8 : gestureStep ⟨GestureType.FIST, 6, GestureType.UNKNOWN, 0⟩ GestureType.FIST 7
      = (⟨GestureType.FIST, 7, GestureType.UNKNOWN, 0⟩, none) := by simp [gestureStep]
  have a9 : gestureStep ⟨GestureType.FIST, 7, GestureType.UNKNOWN, 0⟩ GestureType.FIST 1000
      = (⟨GestureType.FIST, 8, GestureType.FIST, 1000⟩, some 0) := by
      simp [gestureStep]
      norm_num
  have a10 : gestureStep ⟨GestureType.FIST, 8, GestureType.FIST, 1000⟩ GestureType.FIST 1500
      = (⟨GestureType.FIST, 9, GestureType.FIST, 1000⟩, none) := by
      simp [gestureStep]
      norm_num
  have b10 : gestureStep ⟨GestureType.FIST, 8, GestureType.FIST, 1000⟩ GestureType.FIST 1900
      = (⟨GestureType.FIST, 9, GestureType.FIST, 1900⟩, some 0) := by
      simp [gestureStep]
      norm_num
  constructor
  · simp only [fistFramesA, runGesture_cons, runGesture_nil,
      a1, a2, a3, a4, a5, a6, a7, a8, a9, a10]
    simp [Option.toList]
  · simp only [fistFramesB, runGesture_cons, runGesture_nil,
      a1, a2, a3, a4, a5, a6, a7, a8, a9, b10]
    simp [Option.toList]

/-- Claim C10: while the same non-UNKNOWN gesture keeps being classified, the
debounce counter increments without bound, the commit branch runs on every
frame past the threshold, and a continuously held FIST re-dispatches the
assemble action every time more than 800 ms have elapsed since the previous
dispatch: 27 held-FIST frames at 100 ms intervals from `t = 1000` dispatch
three times (at `t = 1800`, `2700` and `3600`), not only at the gesture's
onset. -/
theorem C10_held_gesture_redispatch :
    (∀ (st : GestureState) (g : GestureType) (now : ℚ),
        st.lastRawGesture = g → g ≠ GestureType.UNKNOWN →
        (gestureStep st g now).1.debounceCount = st.debounceCount + 1)
    ∧ (∀ (st : GestureState) (g : GestureType) (now : ℚ),
        st.lastRawGesture = g → g ≠ GestureType.UNKNOWN → 8 ≤ st.debounceCount + 1 →
        (gestureStep st g now).1.currentStableGesture = g)
    ∧ (runGesture initGestureState heldFistFrames).2 = [0, 0, 0] := by
  refine ⟨?_, ?_, ?_⟩
  · intro st g now h1 h2
    unfold gestureStep
    have hcond : g = st.lastRawGesture ∧ g ≠ GestureType.UNKNOWN := ⟨h1.symm, h2⟩
    rw [if_pos hcond]
    dsimp only
    split_ifs <;> rfl
  · exact fun st g now h1 h2 h3 => (gestureStep_commit_stable st g now h1 h2 h3).1
  · have c1 : gestureStep initGestureState GestureType.FIST 1000
        = (⟨GestureType.FIST, 0, GestureType.UNKNOWN, 0⟩, none) := by
      norm_num [gestureStep, initGestureState]
    have c2 : gestureStep ⟨GestureType.FIST, 0, GestureType.UNKNOWN, 0⟩ GestureType.FIST 1100
        = (⟨GestureType.FIST, 1, GestureType.UNKNOWN, 0⟩, none) := by simp [gestureStep]
    have c3 : gestureStep ⟨GestureType.FIST, 1, GestureType.UNKNOWN, 0⟩ GestureType.FIST 1200
        = (⟨GestureType.FIST, 2, GestureType.UNKNOWN, 0⟩, none) := by simp [gestureStep]
    have c4 : gestureStep ⟨GestureType.FIST, 2, GestureType.UNKNOWN, 0⟩ GestureType.FIST 1300
        = (⟨GestureType.FIST, 3, GestureType.UNKNOWN, 0⟩, none) := by simp [gestureStep]
    have c5 : gestureStep ⟨GestureType.FIST, 3, GestureType.UNKNOWN, 0⟩ GestureType.FIST 1400
        = (⟨GestureType.FIST, 4, GestureType.UNKNOWN, 0⟩, none) := by simp [gestureStep]
    have c6 : gestureStep ⟨GestureType.FIST, 4, GestureType.UNKNOWN, 0⟩ GestureType.FIST 1500
        = (⟨GestureType.FIST, 5, GestureType.UNKNOWN, 0⟩, none) := by simp [gestureStep]
    have c7 : gestureStep ⟨GestureType.FIST, 5, GestureType.UNKNOWN, 0⟩ GestureType.FIST 1600
        = (⟨GestureType.FIST, 6, GestureType.UNKNOWN, 0⟩, none) := by simp [gestureStep]
    have c8 : gestureStep ⟨GestureType.FIST, 6, GestureType.UNKNOWN, 0⟩ GestureType.FIST 1700
        = (⟨GestureType.FIST, 7, GestureType.UNKNOWN, 0⟩, none) := by simp [gestureStep]
    have c9 : gestureStep ⟨GestureType.FIST, 7, GestureType.UNKNOWN, 0⟩ GestureType.FIST 1800
        = (⟨GestureType.FIST, 8, GestureType.FIST, 1800⟩, some 0) := by
      simp [gestureStep]
      norm_num
    have c10 : gestureStep ⟨GestureType.FIST, 8, GestureType.FIST, 1800⟩ GestureType.FIST 1900
        = (⟨GestureType.FIST, 9, GestureType.FIST, 1800⟩, none) := by
      simp [gestureStep]
      norm_num
    have c11 : gestureStep ⟨GestureType.FIST, 9, GestureType.FIST, 1800⟩ GestureType.FIST 2000
        = (⟨GestureType.FIST, 10, GestureType.FIST, 1800⟩, none) := by
      simp [gestureStep]
      norm_num
    have c12 : gestureStep ⟨GestureType.FIST, 10, GestureType.FIST, 1800⟩ GestureType.FIST 2100
        = (⟨GestureType.FIST, 11, GestureType.FIST, 1800⟩, none) := by
      simp [gestureStep]
      norm_num
    have c13 : gestureStep ⟨GestureType.FIST, 11, GestureType.FIST, 1800⟩ GestureType.FIST 2200
        = (⟨GestureType.FIST, 12, GestureType.FIST, 1800⟩, none) := by
      simp [gestureStep]
      norm_num
    have c14 : gestureStep ⟨GestureType.FIST, 12, GestureType.FIST, 1800⟩ GestureType.FIST 2300
        = (⟨GestureType.FIST, 13, GestureType.FIST, 1800⟩, none) := by
      simp [gestureStep]
      norm_num
    have c15 : gestureStep ⟨GestureType.FIST, 13, GestureType.FIST, 1800⟩ GestureType.FIST 2400
        = (⟨GestureType.FIST, 14, GestureType.FIST, 1800⟩, none) := by
      simp [gestureStep]
      norm_num
    have c16 : gestureStep ⟨GestureType.FIST, 14, GestureType.FIST, 1800⟩ GestureType.FIST 2500
        = (⟨GestureType.FIST, 15, GestureType.FIST, 1800⟩, none) := by
      simp [gestureStep]
      norm_num
    have c17 : gestureStep ⟨GestureType.FIST, 15, GestureType.FIST, 1800⟩ GestureType.FIST 2600
        = (⟨GestureType.FIST, 16, GestureType.FIST, 1800⟩, none) := by
      simp [gestureStep]
      norm_num
    have c18 : gestureStep ⟨GestureType.FIST, 16, GestureType.FIST, 1800⟩ GestureType.FIST 2700
        = (⟨GestureType.FIST, 17, GestureType.FIST, 2700⟩, some 0) := by
      simp [gestureStep]
      norm_num
    have c19 : gestureStep ⟨GestureType.FIST, 17, GestureType.FIST, 2700⟩ GestureType.FIST 2800
        = (⟨GestureType.FIST, 18, GestureType.FIST, 2700⟩, none) := by
      simp [gestureStep]
      norm_num
    have c20 : gestureStep ⟨GestureType.FIST, 18, GestureType.FIST, 2700⟩ GestureType.FIST 2900
        = (⟨GestureType.FIST, 19, GestureType.FIST, 2700⟩, none) := by
      simp [gestureStep]
      norm_num
    have c21 : gestureStep ⟨GestureType.FIST, 19, GestureType.FIST, 2700⟩ GestureType.FIST 3000
        = (⟨GestureType.FIST, 20, GestureType.FIST, 2700⟩, none) := by
      simp [gestureStep]
      norm_num
    have c22 : gestureStep ⟨GestureType.FIST, 20, GestureType.FIST, 2700⟩ GestureType.FIST 3100
        = (⟨GestureType.FIST, 21, GestureType.FIST, 2700⟩, none) := by
      simp [gestureStep]
      norm_num
    have c23 : gestureStep ⟨GestureType.FIST, 21, GestureType.FIST, 2700⟩ GestureType.FIST 3200
        = (⟨GestureType.FIST, 22, GestureType.FIST, 2700⟩, none) := by
      simp [gestureStep]
      norm_num
    have c24 : gestureStep ⟨GestureType.FIST, 22, GestureType.FIST, 2700⟩ GestureType.FIST 3300
        = (⟨GestureType.FIST, 23, GestureType.FIST, 2700⟩, none) := by
      simp [gestureStep]
      norm_num
    have c25 : gestureStep ⟨GestureType.FIST, 23, GestureType.FIST, 2700⟩ GestureType.FIST 3400
        = (⟨GestureType.FIST, 24, GestureType.FIST, 2700⟩, none) := by
      simp [gestureStep]
      norm_num
    have c26 : gestureStep ⟨GestureType.FIST, 24, GestureType.FIST, 2700⟩ GestureType.FIST 3500
        = (⟨GestureType.FIST, 25, GestureType.FIST, 2700⟩, none) := by
      simp [gestureStep]
      norm_num
    have c27 : gestureStep ⟨GestureType.FIST, 25, GestureType.FIST, 2700⟩ GestureType.FIST 3600
        = (⟨GestureType.FIST, 26, GestureType.FIST, 3600⟩, some 0) := by
      simp [gestureStep]
      norm_num
    simp only [heldFistFrames, runGesture_cons, runGesture_nil,
      c1, c2, c3, c4, c5, c6, c7, c8, c9, c10, c11, c12, c13, c14, c15, c16, c17, c18,
      c19, c20, c21, c22, c23, c24, c25, c26, c27]
    simp [Option.toList]

/-- Witness for C10's universally quantified conjuncts at a concrete state
past the threshold. -/
theorem C10_held_gesture_redispatch_witness :
    (gestureStep ⟨GestureType.FIST, 8, GestureType.FIST, 0⟩ GestureType.FIST 1000).1.debounceCount
      = 8 + 1
    ∧ (gestureStep ⟨GestureType.FIST, 8, GestureType.FIST, 0⟩
        GestureType.FIST 1000).1.currentStableGesture = GestureType.FIST :=
  ⟨C10_held_gesture_redispatch.1 ⟨GestureType.FIST, 8, GestureType.FIST, 0⟩
      GestureType.FIST 1000 rfl (by decide),
   C10_held_gesture_redispatch.2.1 ⟨GestureType.FIST, 8, GestureType.FIST, 0⟩
      GestureType.FIST 1000 rfl (by decide) (by norm_num)⟩

/-- Claim C7 (amended): per-axis wrist deltas below `0.003` are floored to
zero, so flooring both to zero (in particular a delta of exactly `0.002` on
both axes) leaves the yaw and pitch orbit targets unchanged; a surviving
delta adds `Δx·π·1.25` to the yaw target and `Δy·π·0.6` to the pitch target,
with only the pitch target clamped to `±0.6` — the yaw target is not clamped
(see the counterexample). -/
theorem C7_deadzone_orbit (px py wx wy yaw pitch : ℝ) :
    ((if |wx - px| < 0.003 then (0:ℝ) else wx - px) = 0 →
      (if |wy - py| < 0.003 then (0:ℝ) else wy - py) = 0 →
      wristUpdate px py wx wy yaw pitch = ((yaw, pitch), false))
    ∧ (∀ x y : ℝ, wristUpdate x y (x + 0.002) (y + 0.002) yaw pitch
        = ((yaw, pitch), false))
    ∧ (¬ ((if |wx - px| < 0.003 then (0:ℝ) else wx - px) = 0
          ∧ (if |wy - py| < 0.003 then (0:ℝ) else wy - py) = 0) →
      wristUpdate px py wx wy yaw pitch
        = ((yaw + (if |wx - px| < 0.003 then (0:ℝ) else wx - px) * Real.pi * 1.25,
            max (-0.6) (min 0.6
              (pitch + (if |wy - py| < 0.003 then (0:ℝ) else wy - py) * Real.pi * 0.6))),
           true)) := by
  refine ⟨?_, ?_, ?_⟩
  · intro hdx hdy
    unfold wristUpdate
    rw [hdx, hdy]
    simp
  · intro x y
    unfold wristUpdate
    have hx : |x + 0.002 - x| < 0.003 := by
      rw [show x + 0.002 - x = (0.002:ℝ) by ring]
      rw [abs_of_nonneg (by norm_num)]
      norm_num
    have hy : |y + 0.002 - y| < 0.003 := by
      rw [show y + 0.002 - y = (0.002:ℝ) by ring]
      rw [abs_of_nonneg (by norm_num)]
      norm_num
    rw [if_pos hx, if_pos hy]
    simp
  · intro h
    unfold wristUpdate
    rw [if_pos (by tauto)]

/-- Claim C7 counterexample: the claim as stated clamps both updated targets
to `±0.6` radians, but the yaw target is never clamped: a wrist delta of
`0.5` on the x axis drives the yaw target to `0.625·π > 1.8`. -/
theorem C7_counterexample : (0.6:ℝ) < (wristUpdate 0 0 0.5 0 0 0).1.1 := by
  unfold wristUpdate
  have hx : ¬ |(0.5:ℝ) - 0| < 0.003 := by
    rw [show (0.5:ℝ) - 0 = 0.5 by ring, abs_of_nonneg (by norm_num)]
    norm_num
  rw [if_neg hx]
  rw [if_pos (Or.inl (by norm_num))]
  dsimp only
  have hpi := Real.pi_gt_three
  nlinarith

/-- Witness for C7 at a concrete dead-zone delta (both wrist deltas zero). -/
theorem C7_deadzone_orbit_witness :
    wristUpdate 0 0 0 0 0.3 0.1 = ((0.3, 0.1), false) :=
  (C7_deadzone_orbit 0 0 0 0 0.3 0.1).1 (by norm_num) (by norm_num)

/-- Invariant of the nearest-photo scan: starting from a finite best
`(some b, i)`, the scan returns a pair that is no farther than `b`, is either
the starting accumulator or one of the scanned slots, and is no farther than
every scanned slot. -/
theorem nearestScan_invariant :
    ∀ (l : List (ℕ × ℚ)) (b : ℚ) (i : ℤ),
      ∃ b' i', nearestScan l (some b, i) = (some b', i')
        ∧ b' ≤ b
        ∧ ((b' = b ∧ i' = i) ∨ ∃ k d, (k, d) ∈ l ∧ i' = (k:ℤ) ∧ b' = d)
        ∧ ∀ q ∈ l, b' ≤ q.2 := by
  intro l
  induction l with
  | nil =>
    intro b i
    exact ⟨b, i, rfl, le_refl b, Or.inl ⟨rfl, rfl⟩, by simp⟩
  | cons p rest ih =>
    intro b i
    obtain ⟨k0, d0⟩ := p
    by_cases hd : d0 < b
    · obtain ⟨b', i', heq, hle, hcase, hall⟩ := ih d0 (k0:ℤ)
      refine ⟨b', i', ?_, by linarith, ?_, ?_⟩
      · simp only [nearestScan]
        rw [if_pos hd]
        exact heq
      · rcases hcase with ⟨hb, hi⟩ | ⟨k, d, hk, hi, hb⟩
        · exact Or.inr ⟨k0, d0, by simp, by rw [hi], hb⟩
        · exact Or.inr ⟨k, d, List.mem_cons_of_mem _ hk, hi, hb⟩
      · intro q hq
        rcases List.mem_cons.mp hq with h | h
        · rw [h]
          exact hle
        · exact hall q h
    · obtain ⟨b', i', heq, hle, hcase, hall⟩ := ih b i
      refine ⟨b', i', ?_, hle, ?_, ?_⟩
      · simp only [nearestScan]
        rw [if_neg hd]
        exact heq
      · rcases hcase with ⟨hb, hi⟩ | ⟨k, d, hk, hi, hb⟩
        · exact Or.inl ⟨hb, hi⟩
        · exact Or.inr ⟨k, d, List.mem_cons_of_mem _ hk, hi, hb⟩
      · intro q hq
        rcases List.mem_cons.mp hq with h | h
        · rw [h]
          dsimp only
          push_neg at hd
          linarith
        · exact hall q h

/-- Claim C8: on a tick where focus is active, no identity is focused and at
least one photo slot exists, the slot nearest the camera is selected (its
index is a slot index whose distance is minimal); on subsequent ticks while
focus stays active the same identity remains selected, and a tick with focus
inactive clears the focused identity. -/
theorem C8_focus_selection (photos : List (ℕ × ℚ)) (hne : photos ≠ []) :
    (∃ k d, (k, d) ∈ photos
        ∧ focusStep true photos none = some k
        ∧ ∀ q ∈ photos, d ≤ q.2)
    ∧ (∀ k, focusStep true photos (some k) = some k)
    ∧ (∀ id, focusStep false photos id = none) := by
  refine ⟨?_, ?_, ?_⟩
  · obtain ⟨p, rest, rfl⟩ : ∃ p rest, photos = p :: rest := by
      cases photos with
      | nil => exact absurd rfl hne
      | cons a b => exact ⟨a, b, rfl⟩
    obtain ⟨k0, d0⟩ := p
    obtain ⟨b', i', heq, hle, hcase, hall⟩ := nearestScan_invariant rest d0 (k0:ℤ)
    have hscan : nearestScan ((k0, d0) :: rest) (none, -1) = (some b', i') := by
      simp only [nearestScan]
      exact heq
    have hk : ∃ k : ℕ, i' = (k:ℤ) ∧ ((k, b') ∈ (k0, d0) :: rest) := by
      rcases hcase with ⟨hb, hi⟩ | ⟨k, d, hkm, hi, hb⟩
      · exact ⟨k0, hi, by rw [hb]; simp⟩
      · exact ⟨k, hi, by rw [hb]; exact List.mem_cons_of_mem _ hkm⟩
    obtain ⟨k, hik, hkm⟩ := hk
    refine ⟨k, b', hkm, ?_, ?_⟩
    · unfold focusStep
      rw [if_pos ⟨rfl, rfl, by simp⟩]
      rw [hscan]
      dsimp only
      rw [if_pos (by rw [hik]; omega)]
      rw [hik]
      simp
    · intro q hq
      rcases List.mem_cons.mp hq with h | h
      · rw [h]
        dsimp only
        linarith
      · exact hall q h
  · intro k
    unfold focusStep
    rw [if_neg (by simp)]
    simp
  · intro id
    unfold focusStep
    rw [if_neg (by simp)]
    simp

/-- Witness for C8 at a concrete two-slot photo set. -/
theorem C8_focus_selection_witness :
    ([((0:ℕ), (5:ℚ)), (1, 3)] ≠ ([] : List (ℕ × ℚ)))
    ∧ (∀ k, focusStep true [((0:ℕ), (5:ℚ)), (1, 3)] (some k) = some k) :=
  ⟨by simp, (C8_focus_selection [((0:ℕ), (5:ℚ)), (1, 3)] (by simp)).2.1⟩

/-- Lookup misses when no recorded key matches. -/
theorem assocLookup_eq_none {M : Type} (u : ℕ) :
    ∀ l : List (ℕ × M), (∀ q ∈ l, q.1 ≠ u) → assocLookup u l = none := by
  intro l
  induction l with
  | nil => intro _; rfl
  | cons p rest ih =>
    intro h
    simp only [assocLookup]
    rw [if_neg (h p (List.mem_cons_self _ _))]
    exact ih fun q hq => h q (List.mem_cons_of_mem _ hq)

/-- Lookup skips a prefix none of whose keys match. -/
theorem assocLookup_append {M : Type} (u : ℕ) :
    ∀ l1 l2 : List (ℕ × M), (∀ q ∈ l1, q.1 ≠ u) →
      assocLookup u (l1 ++ l2) = assocLookup u l2 := by
  intro l1
  induction l1 with
  | nil => intro l2 _; rfl
  | cons p rest ih =>
    intro l2 h
    simp only [List.cons_append, assocLookup]
    rw [if_neg (h p (List.mem_cons_self _ _))]
    exact ih l2 fun q hq => h q (List.mem_cons_of_mem _ hq)

/-- Deleting a key that is not recorded is the identity. -/
theorem assocErase_eq_self {M : Type} (u : ℕ) (l : List (ℕ × M))
    (h : ∀ q ∈ l, q.1 ≠ u) : assocErase u l = l := by
  unfold assocErase
  rw [List.filter_eq_self]
  intro q hq
  simpa using h q hq

/-- The darken traversal's material record only accumulates: running it with a
pre-existing record appends the new entries in front of it, and the darkened
scene does not depend on the pre-existing record. -/
theorem darkenPass_mats_append {M : Type} (dark : M) :
    ∀ (scene : List (SceneObj M)) (ms : List (ℕ × M)),
      darkenPass dark scene ms
        = ((darkenPass dark scene []).1, (darkenPass dark scene []).2 ++ ms) := by
  intro scene
  induction scene with
  | nil => intro ms; rfl
  | cons o rest ih =>
    intro ms
    by_cases hc : (o.isMesh && !o.inBloomLayer) = true
    · simp only [darkenPass, hc, if_true]
      rw [ih ((o.uuid, o.material) :: ms), ih [(o.uuid, o.material)]]
      simp
    · simp only [darkenPass, hc, if_false]
      rw [ih ms, ih []]
      simp

/-- Every key recorded by the darken traversal is a uuid of the scene. -/
theorem darkenPass_mats_keys {M : Type} (dark : M) :
    ∀ (scene : List (SceneObj M)),
      ∀ q ∈ (darkenPass dark scene []).2, q.1 ∈ scene.map SceneObj.uuid := by
  intro scene
  induction scene with
  | nil => intro q hq; simp [darkenPass] at hq
  | cons o rest ih =>
    intro q hq
    by_cases hc : (o.isMesh && !o.inBloomLayer) = true
    · rw [show darkenPass dark (o :: rest) [] =
          ((darkenPass dark (o :: rest) []).1, (darkenPass dark (o :: rest) []).2) from rfl] at hq
      simp only [darkenPass, hc, if_true] at hq
      rw [darkenPass_mats_append dark rest [(o.uuid, o.material)]] at hq
      rcases List.mem_append.mp hq with h | h
      · exact List.mem_cons_of_mem _ (ih q h)
      · rcases List.mem_singleton.mp h with rfl
        simp
    · simp only [darkenPass, hc, if_false] at hq
      exact List.mem_cons_of_mem _ (ih q hq)

/-- Round trip of the bloom material substitution: with distinct uuids and a
record disjoint from the scene, the darken traversal followed by the restore
traversal returns every material to its original value and restores the
record to its starting state. -/
theorem restorePass_darkenPass {M : Type} (dark : M) :
    ∀ (scene : List (SceneObj M)) (ms : List (ℕ × M)),
      (scene.map SceneObj.uuid).Nodup →
      (∀ o ∈ scene, ∀ q ∈ ms, q.1 ≠ o.uuid) →
      restorePass (darkenPass dark scene ms).1 (darkenPass dark scene ms).2
        = (scene, ms) := by
  intro scene
  induction scene with
  | nil => intro ms _ _; rfl
  | cons o rest ih =>
    intro ms hnd hdisj
    rw [List.map_cons, List.nodup_cons] at hnd
    obtain ⟨hu_notin, hnd_rest⟩ := hnd
    have hdisj_rest : ∀ o' ∈ rest, ∀ q ∈ ms, q.1 ≠ o'.uuid :=
      fun o' ho' => hdisj o' (List.mem_cons_of_mem _ ho')
    have hdisj_o : ∀ q ∈ ms, q.1 ≠ o.uuid := hdisj o (List.mem_cons_self _ _)
    have hEkeys : ∀ q ∈ (darkenPass dark rest []).2, q.1 ≠ o.uuid := by
      intro q hq heq
      exact hu_notin (heq ▸ darkenPass_mats_keys dark rest q hq)
    have hfst : (darkenPass dark rest ms).1 = (darkenPass dark rest []).1 := by
      rw [darkenPass_mats_append dark rest ms]
    have hsnd : (darkenPass dark rest ms).2 = (darkenPass dark rest []).2 ++ ms := by
      rw [darkenPass_mats_append dark rest ms]
    by_cases hc : (o.isMesh && !o.inBloomLayer) = true
    · simp only [darkenPass, hc, if_true]
      rw [darkenPass_mats_append dark rest ((o.uuid, o.material) :: ms)]
      simp only [restorePass]
      rw [assocLookup_append o.uuid _ _ hEkeys]
      simp only [assocLookup]
      rw [if_true]
      unfold assocErase
      rw [List.filter_append]
      have h1 : List.filter (fun p => p.1 != o.uuid) (darkenPass dark rest []).2
          = (darkenPass dark rest []).2 := by
        rw [List.filter_eq_self]
        intro q hq
        simpa using hEkeys q hq
      have h2 : List.filter (fun p => p.1 != o.uuid) ((o.uuid, o.material) :: ms) = ms := by
        rw [List.filter_cons]
        simp only [bne_self_eq_false, Bool.false_eq_true, if_false]
        rw [List.filter_eq_self]
        intro q hq
        simpa using hdisj_o q hq
      rw [h1, h2]
      dsimp only
      rw [← hfst, ← hsnd, ih ms hnd_rest hdisj_rest]
    · simp only [darkenPass, hc, Bool.false_eq_true, if_false]
      rw [darkenPass_mats_append dark rest ms]
      simp only [restorePass]
      rw [assocLookup_append o.uuid _ _ hEkeys]
      rw [assocLookup_eq_none o.uuid ms hdisj_o]
      dsimp only
      rw [← hfst, ← hsnd, ih ms hnd_rest hdisj_rest]

/-- Claim C9: the bloom material substitution is fully reversed within the
frame: starting from an empty record, darkening every non-bloom mesh and then
restoring returns every renderable's material to its original value and
empties the record, so the state seen by the final composite render equals
the original scene. -/
theorem C9_bloom_substitution_reversed {M : Type} (dark : M) (scene : List (SceneObj M))
    (h : (scene.map SceneObj.uuid).Nodup) :
    restorePass (darkenPass dark scene []).1 (darkenPass dark scene []).2
      = (scene, []) :=
  restorePass_darkenPass dark scene [] h (by simp)

/-- Witness for C9 at a concrete three-object scene (a plain mesh, a
bloom-tagged mesh, and a non-mesh). -/
theorem C9_bloom_substitution_reversed_witness :
    restorePass
        (darkenPass 99 [(⟨0, true, false, 10⟩ : SceneObj ℕ), ⟨1, true, true, 20⟩,
          ⟨2, false, false, 30⟩] []).1
        (darkenPass 99 [(⟨0, true, false, 10⟩ : SceneObj ℕ), ⟨1, true, true, 20⟩,
          ⟨2, false, false, 30⟩] []).2
      = ([(⟨0, true, false, 10⟩ : SceneObj ℕ), ⟨1, true, true, 20⟩, ⟨2, false, false, 30⟩],
         []) :=
  C9_bloom_substitution_reversed 99
    [(⟨0, true, false, 10⟩ : SceneObj ℕ), ⟨1, true, true, 20⟩, ⟨2, false, false, 30⟩]
    (by simp)

/-- Claim C6 counterexample: with the morph settled at exactly `1`, the
instance engine still adds idle motion, so a halo point whose scatter
coordinate is `(0,0,0)` is written at `(0, 0.02, 0)`, not at its scatter
coordinate. -/
theorem C6_counterexample :
    morphingInstancesUpdatePos 1 0 ⟨0, 0, 0⟩ ⟨0, 0, 0⟩ 0 true ≠ ⟨0, 0, 0⟩ := by
  have h2 : morphingInstancesUpdatePos 1 0 ⟨0, 0, 0⟩ ⟨0, 0, 0⟩ 0 true = ⟨0, 0.02, 0⟩ := by
    norm_num [morphingInstancesUpdatePos, morphingInstancesEased, lerpVec,
      Real.sin_zero, Real.cos_zero]
  rw [h2]
  simp only [ne_eq, Vec3.mk.injEq]
  norm_num

end Christmas
